import Mathlib

/-!
Verification development for virt-manager's `virtManager/connection.py`.

The Python source is shallowly embedded: each relevant class attribute set
becomes a Lean structure, each method becomes a pure function threading the
state explicitly. Python dictionaries are association lists with unique keys,
Python floats are modelled as rationals, and code paths that raise an
uncaught exception (e.g. `ZeroDivisionError`) return `none`.
-/

set_option autoImplicit false

namespace VMConn

/-! ## Entity classes and tracked objects -/

/-- The five vmmLibvirtObject subclasses tracked by the connection. -/
inductive EntityClass
  | vm
  | net
  | pool
  | iface
  | nodedev
deriving DecidableEq, Repr

/-- The Python `str(obj.__class__)` text used by `_ObjectList._blacklist_key`
(quote characters dropped; the five strings remain pairwise non-prefix). -/
def EntityClass.pyStr : EntityClass → String
  | .vm => "<class virtManager.domain.vmmDomain>"
  | .net => "<class virtManager.network.vmmNetwork>"
  | .pool => "<class virtManager.storagepool.vmmStoragePool>"
  | .iface => "<class virtManager.interface.vmmInterface>"
  | .nodedev => "<class virtManager.nodedev.vmmNodeDevice>"

/-- A tracked vmmLibvirtObject: `oid` is the Python object identity,
`cls` its class, `connkey` the value of `get_connkey()`. -/
structure VMObj where
  oid : Nat
  cls : EntityClass
  connkey : String
deriving DecidableEq, Repr

/-! ## Python dict model (string keys, Nat values) -/

/-- `d.get(k, 0)`. -/
def dget (d : List (String × Nat)) (k : String) : Nat :=
  (List.lookup k d).getD 0

/-- `d[k] = v`. -/
def dset (d : List (String × Nat)) (k : String) (v : Nat) : List (String × Nat) :=
  match d with
  | [] => [(k, v)]
  | (k1, v1) :: rest => if k1 = k then (k, v) :: rest else (k1, v1) :: dset rest k v

/-- `d.pop(k, 0)`: the popped value (default 0) and the remaining dict. -/
def dpop (d : List (String × Nat)) (k : String) : Nat × List (String × Nat) :=
  match d with
  | [] => (0, [])
  | (k1, v1) :: rest =>
    if k1 = k then (v1, rest)
    else
      let r := dpop rest k
      (r.fst, (k1, v1) :: r.snd)

/-! ## `_ObjectList` -/

/-- `_ObjectList.BLACKLIST_COUNT`. -/
def BLACKLIST_COUNT : Nat := 3

/-- State of `_ObjectList`: the `_objects` list and the `_blacklist` dict. -/
structure ObjectList where
  objects : List VMObj
  blacklist : List (String × Nat)
deriving DecidableEq, Repr

/-- A freshly constructed `_ObjectList`. -/
def ObjectList.empty : ObjectList := { objects := [], blacklist := [] }

/-- `_ObjectList._blacklist_key`: `str(obj.__class__) + obj.get_connkey()`. -/
def blacklist_key (obj : VMObj) : String :=
  obj.cls.pyStr ++ obj.connkey

/-- `_ObjectList.in_blacklist`: count strictly above `BLACKLIST_COUNT`. -/
def ObjectList.in_blacklist (ol : ObjectList) (obj : VMObj) : Bool :=
  decide (dget ol.blacklist (blacklist_key obj) > BLACKLIST_COUNT)

/-- `_ObjectList.add_blacklist`: the conditional increment followed by the
unconditional `self._blacklist[key] = 1`; returns the count read back and
the new state. -/
def ObjectList.add_blacklist (ol : ObjectList) (obj : VMObj) : Nat × ObjectList :=
  let key := blacklist_key obj
  let b1 :=
    if ol.in_blacklist obj then dset ol.blacklist key (dget ol.blacklist key + 1)
    else ol.blacklist
  let b2 := dset b1 key 1
  (dget b2 key, { ol with blacklist := b2 })

/-- `_ObjectList.remove_blacklist`: `bool(self._blacklist.pop(key, 0))`. -/
def ObjectList.remove_blacklist (ol : ObjectList) (obj : VMObj) : Bool × ObjectList :=
  let r := dpop ol.blacklist (blacklist_key obj)
  (decide (r.fst ≠ 0), { ol with blacklist := r.snd })

/-- `_ObjectList.remove`: identity removal, falling back to
`remove_blacklist` when the object is not in `_objects`. -/
def ObjectList.remove (ol : ObjectList) (obj : VMObj) : Bool × ObjectList :=
  if obj ∈ ol.objects then
    (true, { ol with objects := ol.objects.erase obj })
  else
    ol.remove_blacklist obj

/-- `_ObjectList.add`: scan for an entry of the same class and connkey,
then the (redundant) identity check, then append. -/
def ObjectList.add (ol : ObjectList) (obj : VMObj) : Bool × ObjectList :=
  if ∃ checkobj ∈ ol.objects, checkobj.cls = obj.cls ∧ checkobj.connkey = obj.connkey then
    (false, ol)
  else if obj ∈ ol.objects then
    (false, ol)
  else
    (true, { ol with objects := ol.objects ++ [obj] })

/-- Two tracked objects collide when they share class and connkey. -/
def sameKey (a b : VMObj) : Prop :=
  a.cls = b.cls ∧ a.connkey = b.connkey

instance (a b : VMObj) : Decidable (sameKey a b) := by
  unfold sameKey; infer_instance

/-- Registry state reached from a fresh `_ObjectList` by a sequence of
`add` calls. -/
def applyAdds (calls : List VMObj) : ObjectList :=
  calls.foldl (fun ol obj => (ol.add obj).snd) ObjectList.empty

/-! ## Statistics (`_recalculate_stats` and the stats getters)

Python floats are modelled as rationals; a `ZeroDivisionError` that the
method would raise is modelled as `none`. -/

/-- One entry of `self._stats` (the `newStats` dict). -/
structure StatsSample where
  timestamp : ℚ
  memory : ℚ
  memoryPercent : ℚ
  cpuTime : ℚ
  cpuHostPercent : ℚ
  diskRdRate : ℚ
  diskWrRate : ℚ
  netRxRate : ℚ
  netTxRate : ℚ
  diskMaxRate : ℚ
  netMaxRate : ℚ
deriving DecidableEq, Repr

/-- The per-VM values read by the loop in `_recalculate_stats`. -/
structure VmRecord where
  is_active : Bool
  cpu_time : ℚ
  stats_memory : ℚ
  disk_read_rate : ℚ
  disk_write_rate : ℚ
  network_rx_rate : ℚ
  network_tx_rate : ℚ
  network_traffic_max_rate : ℚ
  disk_io_max_rate : ℚ
deriving Repr

/-- The slice of `vmmConnection` state that the stats code touches:
`self._backend.is_open()`, `self._hostinfo` (memory KiB and processor count,
i.e. entries 1 and 2 of `getInfo()`), the configured
`get_stats_history_length()`, and `self._stats`. -/
structure StatsConn where
  backend_open : Bool
  hostinfo : Option (ℚ × ℚ)
  history_len : Nat
  stats : List StatsSample
deriving Repr

/-- `vmmConnection.host_memory_size`. -/
def StatsConn.host_memory_size (c : StatsConn) : ℚ :=
  match c.backend_open, c.hostinfo with
  | true, some hi => hi.fst * 1024
  | _, _ => 0

/-- `vmmConnection.host_active_processor_count`. -/
def StatsConn.host_active_processor_count (c : StatsConn) : ℚ :=
  match c.backend_open, c.hostinfo with
  | true, some hi => hi.snd
  | _, _ => 0

/-- `vmmConnection._get_record_helper`: 0 on empty history, else the field
of the newest sample. -/
def StatsConn.get_record (c : StatsConn) (f : StatsSample → ℚ) : ℚ :=
  match c.stats with
  | [] => 0
  | s :: _ => f s

/-- `vmmConnection.stats_memory`. -/
def StatsConn.stats_memory (c : StatsConn) : ℚ :=
  c.get_record (fun s => s.memory)

/-- `vmmConnection.host_cpu_time_percentage`. -/
def StatsConn.host_cpu_time_percentage (c : StatsConn) : ℚ :=
  c.get_record (fun s => s.cpuHostPercent)

/-- `vmmConnection.guest_cpu_time_percentage`. -/
def StatsConn.guest_cpu_time_percentage (c : StatsConn) : ℚ :=
  c.host_cpu_time_percentage

/-- `vmmConnection.network_traffic_rate`. -/
def StatsConn.network_traffic_rate (c : StatsConn) : ℚ :=
  c.get_record (fun s => s.netRxRate) + c.get_record (fun s => s.netTxRate)

/-- `vmmConnection.disk_io_rate`. -/
def StatsConn.disk_io_rate (c : StatsConn) : ℚ :=
  c.get_record (fun s => s.diskRdRate) + c.get_record (fun s => s.diskWrRate)

/-- `vmmConnection.network_traffic_max_rate`. -/
def StatsConn.network_traffic_max_rate (c : StatsConn) : ℚ :=
  c.get_record (fun s => s.netMaxRate)

/-- `vmmConnection.disk_io_max_rate`. -/
def StatsConn.disk_io_max_rate (c : StatsConn) : ℚ :=
  c.get_record (fun s => s.diskMaxRate)

/-- `vmmConnection._vector_helper`. -/
def StatsConn.vector_helper (c : StatsConn) (f : StatsSample → ℚ)
    (limit : Option Nat) (ceil : ℚ) : List ℚ :=
  let statslen :=
    match limit with
    | none => c.history_len + 1
    | some l => min (c.history_len + 1) l
  (List.range statslen).map fun i =>
    match c.stats.get? i with
    | some s => f s / ceil
    | none => 0

/-- `vmmConnection.stats_memory_vector`. -/
def StatsConn.stats_memory_vector (c : StatsConn) (limit : Option Nat) : List ℚ :=
  c.vector_helper (fun s => s.memoryPercent) limit 100

/-- `vmmConnection.host_cpu_time_vector`. -/
def StatsConn.host_cpu_time_vector (c : StatsConn) (limit : Option Nat) : List ℚ :=
  c.vector_helper (fun s => s.cpuHostPercent) limit 100

/-- `vmmConnection._recalculate_stats`, yielding the new `self._stats`
(`none` when the method raises `ZeroDivisionError`). The early return on a
closed backend leaves the history untouched. Truncation to
`get_stats_history_length()` happens before the running maxima are read and
before the new sample is inserted at position 0, exactly as in the source. -/
def StatsConn.recalculate_stats (c : StatsConn) (vms : List VmRecord)
    (now : ℚ) : Option (List StatsSample) :=
  if c.backend_open = false then some c.stats
  else
    let stats0 := c.stats.take c.history_len
    let c0 : StatsConn := { c with stats := stats0 }
    let diskMaxRate0 := if c0.disk_io_max_rate = 0 then 10 else c0.disk_io_max_rate
    let netMaxRate0 := if c0.network_traffic_max_rate = 0 then 10 else c0.network_traffic_max_rate
    let active := vms.filter (fun v => v.is_active)
    let cpuTime := (active.map (fun v => v.cpu_time)).sum
    let mem := (active.map (fun v => v.stats_memory)).sum
    let rdRate := (active.map (fun v => v.disk_read_rate)).sum
    let wrRate := (active.map (fun v => v.disk_write_rate)).sum
    let rxRate := (active.map (fun v => v.network_rx_rate)).sum
    let txRate := (active.map (fun v => v.network_tx_rate)).sum
    let netMaxRate := active.foldl (fun m v => max m v.network_traffic_max_rate) netMaxRate0
    let diskMaxRate := active.foldl (fun m v => max m v.disk_io_max_rate) diskMaxRate0
    if c0.host_memory_size = 0 then none
    else
      let pcentMem0 := mem * 100 / c0.host_memory_size
      let cpuRes : Option ℚ :=
        match stats0 with
        | [] => some 0
        | prev :: _ =>
          let host_cpus := c0.host_active_processor_count
          let denom := (now - prev.timestamp) * 1000 * 1000 * 1000 * host_cpus
          if denom = 0 then none else some (cpuTime * 100 / denom)
      match cpuRes with
      | none => none
      | some pcentHostCpu0 =>
        let pcentHostCpu := max 0 (min 100 pcentHostCpu0)
        let pcentMem := max 0 (min 100 pcentMem0)
        let newStats : StatsSample :=
          { timestamp := now
            memory := mem
            memoryPercent := pcentMem
            cpuTime := cpuTime
            cpuHostPercent := pcentHostCpu
            diskRdRate := rdRate
            diskWrRate := wrRate
            netRxRate := rxRate
            netTxRate := txRate
            diskMaxRate := diskMaxRate
            netMaxRate := netMaxRate }
        some (newStats :: stats0)

/-! ## Event registration (`_add_conn_events`) -/

/-- The `using_*_events` flags of `vmmConnection` (all `False` at
construction time). -/
structure EventFlags where
  using_domain_events : Bool
  using_network_events : Bool
  using_storage_pool_events : Bool
  using_node_device_events : Bool
deriving DecidableEq, Repr

/-- Flag state after `vmmConnection.__init__`. -/
def EventFlags.init : EventFlags :=
  { using_domain_events := false
    using_network_events := false
    using_storage_pool_events := false
    using_node_device_events := false }

/-- Outcomes of the external calls made by `_add_conn_events`: the
`SUPPORT_CONN_WORKING_XEN_EVENTS` probe, the `FORCE_DISABLE_EVENTS` toggle,
and whether each `*EventRegisterAny` call returns rather than raises. -/
structure RegOutcomes where
  support_working_xen_events : Bool
  force_disable : Bool
  domain_lifecycle_ok : Bool
  network_lifecycle_ok : Bool
  pool_lifecycle_ok : Bool
  pool_refresh_ok : Bool
  nodedev_lifecycle_ok : Bool
  nodedev_update_ok : Bool
deriving DecidableEq, Repr

/-- `vmmConnection._add_conn_events` restricted to its effect on the
`using_*_events` flags. Each try/except block either sets its flag on full
success or runs its except branch; the auxiliary `_add_domain_xml_event`
registrations never touch a flag. The node-device except branch assigns
`using_network_events = False`, exactly as in the source. -/
def add_conn_events (st : EventFlags) (r : RegOutcomes) : EventFlags :=
  if r.support_working_xen_events = false then st
  else
    let st1 :=
      if r.force_disable = false ∧ r.domain_lifecycle_ok = true then
        { st with using_domain_events := true }
      else { st with using_domain_events := false }
    let st2 :=
      if r.force_disable = false ∧ r.network_lifecycle_ok = true then
        { st1 with using_network_events := true }
      else { st1 with using_network_events := false }
    let st3 :=
      if r.force_disable = false ∧ r.pool_lifecycle_ok = true ∧ r.pool_refresh_ok = true then
        { st2 with using_storage_pool_events := true }
      else { st2 with using_storage_pool_events := false }
    if r.force_disable = false ∧ r.nodedev_lifecycle_ok = true ∧ r.nodedev_update_ok = true then
      { st3 with using_node_device_events := true }
    else { st3 with using_network_events := false }

/-! ## Tick entry guards and per-class polling (`_tick` / `_update_*`) -/

/-- `vmmConnection._state`. -/
inductive ConnState
  | disconnected
  | connecting
  | active
deriving DecidableEq, Repr

/-- The slice of connection state consulted by `_tick` and the
`_update_*` helpers: `_closing`, `_state`, the `using_*_events` flags and
the cached capability probes. VM polling has no capability gate. -/
structure TickConn where
  closing : Bool
  state : ConnState
  using_domain_events : Bool
  using_network_events : Bool
  using_storage_pool_events : Bool
  using_node_device_events : Bool
  network_capable : Bool
  storage_capable : Bool
  iface_capable : Bool
  nodedev_capable : Bool
deriving DecidableEq, Repr

/-- The keyword options of `_tick`. -/
structure TickOpts where
  stats_update : Bool
  pollvm : Bool
  pollnet : Bool
  pollpool : Bool
  polliface : Bool
  pollnodedev : Bool
  force : Bool
deriving DecidableEq, Repr

/-- Which classes a `_tick` pass actually polls (i.e. for which classes the
corresponding `_update_*` helper reaches its `pollhelpers.fetch_*` call),
and whether the stats branch (`_recalculate_stats` plus the
`resources-sampled` emission) runs. -/
structure TickDecision where
  vm : Bool
  net : Bool
  pool : Bool
  iface : Bool
  nodedev : Bool
  stats : Bool
deriving DecidableEq, Repr

/-- The all-skipped outcome of an early return in `_tick`. -/
def TickDecision.none : TickDecision :=
  { vm := false, net := false, pool := false, iface := false,
    nodedev := false, stats := false }

/-- `vmmConnection._tick` control flow: the three entry guards, the
`stats_update` adjustment, the per-class event-coverage adjustments, and the
capability gates inside `_update_nets` / `_update_pools` /
`_update_interfaces` / `_update_nodedevs` (`_update_vms` has none). -/
def tick_decision (c : TickConn) (o : TickOpts) : TickDecision :=
  if c.closing = true then TickDecision.none
  else if c.state = ConnState.disconnected then TickDecision.none
  else if c.state = ConnState.connecting ∧ o.force = false then TickDecision.none
  else
    let stats_update := if o.pollvm = false then false else o.stats_update
    let pollvm :=
      if c.using_domain_events = true ∧ o.force = false then false else o.pollvm
    let pollnet :=
      if c.using_network_events = true ∧ o.force = false then false else o.pollnet
    let pollpool :=
      if c.using_storage_pool_events = true ∧ o.force = false then false else o.pollpool
    let pollnodedev :=
      if c.using_node_device_events = true ∧ o.force = false then false else o.pollnodedev
    { vm := pollvm
      net := pollnet && c.network_capable
      pool := pollpool && c.storage_capable
      iface := o.polliface && c.iface_capable
      nodedev := pollnodedev && c.nodedev_capable
      stats := stats_update }

/-- Whether the pass polls a given entity class. -/
def tick_polls (c : TickConn) (o : TickOpts) : EntityClass → Bool
  | .vm => (tick_decision c o).vm
  | .net => (tick_decision c o).net
  | .pool => (tick_decision c o).pool
  | .iface => (tick_decision c o).iface
  | .nodedev => (tick_decision c o).nodedev

/-- The option flag requesting polling of a class. -/
def TickOpts.requested (o : TickOpts) : EntityClass → Bool
  | .vm => o.pollvm
  | .net => o.pollnet
  | .pool => o.pollpool
  | .iface => o.polliface
  | .nodedev => o.pollnodedev

/-- The capability gate applied by the class's `_update_*` helper
(always passed for VMs). -/
def TickConn.capable (c : TickConn) : EntityClass → Bool
  | .vm => true
  | .net => c.network_capable
  | .pool => c.storage_capable
  | .iface => c.iface_capable
  | .nodedev => c.nodedev_capable

/-- Whether the class is covered by async events in `_tick`
(interfaces never are: no interface events exist). -/
def TickConn.event_covered (c : TickConn) : EntityClass → Bool
  | .vm => c.using_domain_events
  | .net => c.using_network_events
  | .pool => c.using_storage_pool_events
  | .iface => false
  | .nodedev => c.using_node_device_events

/-! ## Concrete inputs used by witnesses and counterexamples -/

/-- A VM object with connkey `vm1`. -/
def obj1 : VMObj := ⟨1, EntityClass.vm, "vm1"⟩

/-- A distinct Python object of the same class and connkey as `obj1`. -/
def obj1b : VMObj := ⟨2, EntityClass.vm, "vm1"⟩

/-- A network object with connkey `net1`. -/
def obj2 : VMObj := ⟨3, EntityClass.net, "net1"⟩

/-- A registry holding exactly `obj1`. -/
def olOne : ObjectList := { objects := [obj1], blacklist := [] }

/-- One initialization-failure report for `obj1`. -/
def blacklist_step (ol : ObjectList) : ObjectList := (ol.add_blacklist obj1).snd

/-- Four consecutive failure reports for `obj1`, no intervening removal. -/
def blacklisted4 : ObjectList :=
  blacklist_step (blacklist_step (blacklist_step (blacklist_step ObjectList.empty)))

/-- A registry whose object list misses `obj1` but whose blacklist has an
entry for it. -/
def olBL : ObjectList := { objects := [], blacklist := [(blacklist_key obj1, 2)] }

/-- The all-zero statistics sample (timestamp 0). -/
def zeroSample : StatsSample := ⟨0, 0, 0, 0, 0, 0, 0, 0, 0, 0, 0⟩

/-- An open connection with 1 KiB host memory, one processor, a configured
history length of 1, and one stored sample. -/
def connStats1 : StatsConn :=
  { backend_open := true, hostinfo := some (1, 1), history_len := 1,
    stats := [zeroSample] }

/-- The history produced by `connStats1.recalculate_stats [] 1`. -/
def recalcOut : List StatsSample :=
  [⟨1, 0, 0, 0, 0, 0, 0, 0, 0, 10, 10⟩, zeroSample]

/-- An open connection with an empty statistics history. -/
def connStatsEmpty : StatsConn :=
  { backend_open := true, hostinfo := none, history_len := 2, stats := [] }

/-- Registration outcomes where everything succeeds except the node-device
lifecycle registration. -/
def regNodedevFails : RegOutcomes :=
  { support_working_xen_events := true, force_disable := false,
    domain_lifecycle_ok := true, network_lifecycle_ok := true,
    pool_lifecycle_ok := true, pool_refresh_ok := true,
    nodedev_lifecycle_ok := false, nodedev_update_ok := true }

/-- An active, non-closing connection where network events are in use and
every capability probe succeeded. -/
def connTickA : TickConn :=
  { closing := false, state := ConnState.active,
    using_domain_events := false, using_network_events := true,
    using_storage_pool_events := false, using_node_device_events := false,
    network_capable := true, storage_capable := true,
    iface_capable := true, nodedev_capable := true }

/-- A forced tick requesting stats and every class. -/
def optsForcedAll : TickOpts :=
  { stats_update := true, pollvm := true, pollnet := true, pollpool := true,
    polliface := true, pollnodedev := true, force := true }

/-- An unforced tick requesting stats and every class except VMs. -/
def optsNoVm : TickOpts :=
  { stats_update := true, pollvm := false, pollnet := true, pollpool := true,
    polliface := true, pollnodedev := true, force := false }

/-! ## Dict and list lemmas -/

theorem dget_dset_self (d : List (String × Nat)) (k : String) (v : Nat) :
    dget (dset d k v) k = v := by
  induction d with
  | nil => simp [dget, dset, List.lookup]
  | cons p rest ih =>
    obtain ⟨k1, v1⟩ := p
    by_cases hk : k1 = k
    · subst hk
      simp [dget, dset, List.lookup]
    · have hbeq : (k == k1) = false := beq_eq_false_iff_ne.mpr (Ne.symm hk)
      simp only [dset, if_neg hk]
      simpa [dget, List.lookup, hbeq] using ih

theorem dpop_fst_ne_zero (d : List (String × Nat)) (k : String)
    (hpos : ∀ p ∈ d, p.snd ≠ 0) :
    (dpop d k).fst ≠ 0 ↔ ∃ p ∈ d, p.fst = k := by
  induction d with
  | nil => simp [dpop]
  | cons p rest ih =>
    obtain ⟨k1, v1⟩ := p
    by_cases hk : k1 = k
    · subst hk
      have hv : v1 ≠ 0 := hpos (k1, v1) (by simp)
      simp [dpop, hv]
    · have ih1 := ih fun q hq => hpos q (List.mem_cons_of_mem _ hq)
      simp only [dpop, if_neg hk]
      simpa [hk] using ih1

/-! ## C1: blacklist quarantine -/

/-- C1. The spec claims that after more than 3 consecutive
initialization-failure reports (`add_blacklist` with no intervening
`remove_blacklist`) an entity is quarantined: `in_blacklist` returns true
and the entity is excluded from the `new` set. In the code the increment in
`add_blacklist` is immediately overwritten by the unconditional
`self._blacklist[key] = 1`, so every failure report leaves the count at 1,
`in_blacklist` (which needs a count above `BLACKLIST_COUNT = 3`) never
returns true, and nothing is ever excluded: shown both for an arbitrary
state and for four consecutive failure reports on `obj1`. -/
theorem C1_add_blacklist_never_quarantines :
    (∀ (ol : ObjectList) (obj : VMObj),
        (ol.add_blacklist obj).fst = 1 ∧
        ((ol.add_blacklist obj).snd.in_blacklist obj) = false) ∧
    dget blacklisted4.blacklist (blacklist_key obj1) = 1 ∧
    blacklisted4.in_blacklist obj1 = false := by
  refine ⟨fun ol obj => ?_, by decide, by decide⟩
  unfold ObjectList.add_blacklist ObjectList.in_blacklist
  simp [dget_dset_self, BLACKLIST_COUNT]

/-! ## C2: registry deduplication -/

theorem add_preserves_pairwise (ol : ObjectList) (obj : VMObj)
    (h : ol.objects.Pairwise fun a b => ¬ sameKey a b) :
    ((ol.add obj).snd).objects.Pairwise fun a b => ¬ sameKey a b := by
  unfold ObjectList.add
  split_ifs with h1 h2
  · exact h
  · exact h
  · simp only
    rw [List.pairwise_append]
    refine ⟨h, List.pairwise_singleton _ _, ?_⟩
    intro a ha b hb
    simp only [List.mem_singleton] at hb
    subst hb
    exact fun hs => h1 ⟨a, ha, hs.1, hs.2⟩

theorem foldl_add_pairwise (calls : List VMObj) (ol : ObjectList)
    (h : ol.objects.Pairwise fun a b => ¬ sameKey a b) :
    (calls.foldl (fun o x => (o.add x).snd) ol).objects.Pairwise
      fun a b => ¬ sameKey a b := by
  induction calls generalizing ol with
  | nil => exact h
  | cons x xs ih => exact ih _ (add_preserves_pairwise ol x h)

/-- C2. `add` rejects (returns false, state unchanged) exactly when an
object of the same class and connkey is already present, and otherwise
appends and returns true; consequently any registry reached from empty by
`add` calls holds at most one object per (class, connkey). -/
theorem C2_registry_unique :
    (∀ (ol : ObjectList) (obj : VMObj),
        ((∃ o ∈ ol.objects, sameKey o obj) →
          (ol.add obj).fst = false ∧ (ol.add obj).snd = ol) ∧
        (¬ (∃ o ∈ ol.objects, sameKey o obj) →
          (ol.add obj).fst = true ∧
          (ol.add obj).snd.objects = ol.objects ++ [obj])) ∧
    (∀ calls : List VMObj,
        (applyAdds calls).objects.Pairwise fun a b => ¬ sameKey a b) := by
  constructor
  · intro ol obj
    constructor
    · intro hdup
      obtain ⟨o, ho, hk⟩ := hdup
      unfold ObjectList.add
      rw [if_pos ⟨o, ho, hk.1, hk.2⟩]
      exact ⟨rfl, rfl⟩
    · intro hdup
      have hkey : ¬ ∃ checkobj ∈ ol.objects,
          checkobj.cls = obj.cls ∧ checkobj.connkey = obj.connkey := by
        intro ⟨o, ho, h1, h2⟩
        exact hdup ⟨o, ho, h1, h2⟩
      have hmem : obj ∉ ol.objects := fun hm => hdup ⟨obj, hm, rfl, rfl⟩
      unfold ObjectList.add
      rw [if_neg hkey, if_neg hmem]
      exact ⟨rfl, rfl⟩
  · intro calls
    exact foldl_add_pairwise calls ObjectList.empty (by simp [ObjectList.empty])

/-- C2 witness: a same-key duplicate of `obj1` is rejected and the registry
is unchanged; a fresh network object is appended with result true. -/
theorem C2_registry_unique_witness :
    ((olOne.add obj1b).fst = false ∧ (olOne.add obj1b).snd = olOne) ∧
    ((olOne.add obj2).fst = true ∧
      (olOne.add obj2).snd.objects = olOne.objects ++ [obj2]) :=
  ⟨(C2_registry_unique.1 olOne obj1b).1 ⟨obj1, by simp [olOne], by decide⟩,
   (C2_registry_unique.1 olOne obj2).2 (by decide)⟩

/-! ## C9: remove and the blacklist fallback -/

/-- C9. For an object absent from the object list, `remove` degrades to
blacklist removal and returns true exactly when a blacklist entry for the
object's (class, connkey) key is present (all stored counts are nonzero),
leaving the object list untouched; for a present object it removes it and
returns true. -/
theorem C9_remove_fallback (ol : ObjectList) (obj : VMObj)
    (hpos : ∀ p ∈ ol.blacklist, p.snd ≠ 0) :
    (obj ∉ ol.objects →
      ((ol.remove obj).fst = true ↔ ∃ p ∈ ol.blacklist, p.fst = blacklist_key obj) ∧
      (ol.remove obj).snd.objects = ol.objects) ∧
    (obj ∈ ol.objects →
      (ol.remove obj).fst = true ∧
      (ol.remove obj).snd.objects = ol.objects.erase obj) := by
  constructor
  · intro hmem
    unfold ObjectList.remove
    rw [if_neg hmem]
    unfold ObjectList.remove_blacklist
    refine ⟨?_, rfl⟩
    rw [decide_eq_true_iff]
    exact dpop_fst_ne_zero ol.blacklist (blacklist_key obj) hpos
  · intro hmem
    unfold ObjectList.remove
    rw [if_pos hmem]
    exact ⟨rfl, rfl⟩

/-- C9 witness: removing `obj1` from a registry that never held it pops its
blacklist entry and reports true, leaving the object list empty. -/
theorem C9_remove_fallback_witness :
    (olBL.remove obj1).fst = true ∧ (olBL.remove obj1).snd.objects = [] := by
  have h := (C9_remove_fallback olBL obj1 (by decide)).1 (by decide)
  exact ⟨h.1.mpr ⟨(blacklist_key obj1, 2), by simp [olBL], rfl⟩, h.2⟩

/-! ## C3 and C4: the shape of `_recalculate_stats` output -/

theorem recalc_open_shape (c : StatsConn) (vms : List VmRecord) (now : ℚ)
    (l : List StatsSample) (hopen : c.backend_open = true)
    (h : c.recalculate_stats vms now = some l) :
    ∃ s : StatsSample, l = s :: c.stats.take c.history_len ∧
      (∃ x, s.memoryPercent = max 0 (min 100 x)) ∧
      (∃ y, s.cpuHostPercent = max 0 (min 100 y)) := by
  unfold StatsConn.recalculate_stats at h
  rw [if_neg (by simp [hopen])] at h
  simp only at h
  split at h
  · exact absurd h (by simp)
  · split at h
    · exact absurd h (by simp)
    · rw [Option.some.injEq] at h
      exact ⟨_, h.symm, ⟨_, rfl⟩, ⟨_, rfl⟩⟩

/-- C3 counterexample: with a configured history length of 1 and one stored
sample, a single insertion by `_recalculate_stats` leaves a history of
length 2, exceeding the configured length (truncation happens before, not
after, the insertion). -/
theorem C3_history_exceeds_configured_length :
    connStats1.history_len = 1 ∧
    ((connStats1.recalculate_stats [] 1).map List.length) = some 2 := by
  refine ⟨rfl, ?_⟩
  norm_num [StatsConn.recalculate_stats, connStats1, zeroSample,
    StatsConn.disk_io_max_rate, StatsConn.network_traffic_max_rate,
    StatsConn.get_record, StatsConn.host_memory_size,
    StatsConn.host_active_processor_count]

/-- C3 amended: with the backend open, every successful pass of
`_recalculate_stats` prepends one new sample to the history truncated to
the configured length, so the stored history never exceeds the configured
length plus one. -/
theorem C3_history_bound (c : StatsConn) (vms : List VmRecord) (now : ℚ)
    (l : List StatsSample) (hopen : c.backend_open = true)
    (h : c.recalculate_stats vms now = some l) :
    l.length ≤ c.history_len + 1 ∧
    l.tail = c.stats.take c.history_len := by
  obtain ⟨s, hl, -, -⟩ := recalc_open_shape c vms now l hopen h
  subst hl
  refine ⟨?_, rfl⟩
  simp only [List.length_cons, Nat.succ_le_succ_iff]
  calc (c.stats.take c.history_len).length
      = min c.history_len c.stats.length := List.length_take _ _
    _ ≤ c.history_len := Nat.min_le_left _ _

/-- The concrete run backing the C3 and C4 witnesses. -/
theorem recalc_connStats1 :
    connStats1.recalculate_stats [] 1 = some recalcOut := by
  norm_num [StatsConn.recalculate_stats, connStats1, zeroSample, recalcOut,
    StatsConn.disk_io_max_rate, StatsConn.network_traffic_max_rate,
    StatsConn.get_record, StatsConn.host_memory_size,
    StatsConn.host_active_processor_count]

/-- C3 witness: the amended bound instantiated on `connStats1`. -/
theorem C3_history_bound_witness :
    recalcOut.length ≤ connStats1.history_len + 1 ∧
    recalcOut.tail = connStats1.stats.take connStats1.history_len :=
  C3_history_bound connStats1 [] 1 recalcOut rfl recalc_connStats1

/-- C4. Whenever `_recalculate_stats` records a sample (backend open and no
exception), the newest sample's memory percent and host CPU percent lie in
[0, 100], whatever the inputs. -/
theorem C4_percent_clamped (c : StatsConn) (vms : List VmRecord) (now : ℚ)
    (l : List StatsSample) (hopen : c.backend_open = true)
    (h : c.recalculate_stats vms now = some l) :
    ∃ s rest, l = s :: rest ∧
      0 ≤ s.memoryPercent ∧ s.memoryPercent ≤ 100 ∧
      0 ≤ s.cpuHostPercent ∧ s.cpuHostPercent ≤ 100 := by
  obtain ⟨s, hl, ⟨x, hx⟩, ⟨y, hy⟩⟩ := recalc_open_shape c vms now l hopen h
  refine ⟨s, _, hl, ?_, ?_, ?_, ?_⟩
  · rw [hx]; exact le_max_left 0 _
  · rw [hx]; exact max_le (by norm_num) (min_le_left _ _)
  · rw [hy]; exact le_max_left 0 _
  · rw [hy]; exact max_le (by norm_num) (min_le_left _ _)

/-- C4 witness: the clamp bounds instantiated on the `connStats1` run. -/
theorem C4_percent_clamped_witness :
    ∃ s rest, recalcOut = s :: rest ∧
      0 ≤ s.memoryPercent ∧ s.memoryPercent ≤ 100 ∧
      0 ≤ s.cpuHostPercent ∧ s.cpuHostPercent ≤ 100 :=
  C4_percent_clamped connStats1 [] 1 recalcOut rfl recalc_connStats1

/-! ## C8: vector accessors -/

theorem vector_helper_length (c : StatsConn) (f : StatsSample → ℚ)
    (limit : Option Nat) (ceil : ℚ) :
    (c.vector_helper f limit ceil).length =
      match limit with
      | Option.none => c.history_len + 1
      | some lim => min (c.history_len + 1) lim := by
  cases limit <;> simp [StatsConn.vector_helper]

theorem vector_helper_pad (c : StatsConn) (f : StatsSample → ℚ)
    (limit : Option Nat) (ceil : ℚ) (i : Nat)
    (hpad : c.stats.length ≤ i) (hlt : i < (c.vector_helper f limit ceil).length) :
    (c.vector_helper f limit ceil).get? i = some 0 := by
  have hnone : c.stats[i]? = Option.none := List.getElem?_eq_none hpad
  simp only [StatsConn.vector_helper] at hlt ⊢
  simp only [List.length_map, List.length_range] at hlt
  rw [List.get?_map, List.get?_range hlt]
  simp [hnone]

/-- C8. Both vector accessors return exactly `history length + 1` entries
when no limit is supplied, and exactly `min (history length + 1) limit`
entries when one is; every position at or beyond the number of stored
samples reads 0. -/
theorem C8_vector_shape (c : StatsConn) (limit : Option Nat) (lim i : Nat)
    (hpad : c.stats.length ≤ i) :
    (c.stats_memory_vector Option.none).length = c.history_len + 1 ∧
    (c.host_cpu_time_vector Option.none).length = c.history_len + 1 ∧
    (c.stats_memory_vector (some lim)).length = min (c.history_len + 1) lim ∧
    (c.host_cpu_time_vector (some lim)).length = min (c.history_len + 1) lim ∧
    (i < (c.stats_memory_vector limit).length →
      (c.stats_memory_vector limit).get? i = some 0) ∧
    (i < (c.host_cpu_time_vector limit).length →
      (c.host_cpu_time_vector limit).get? i = some 0) := by
  refine ⟨vector_helper_length c _ Option.none 100,
    vector_helper_length c _ Option.none 100,
    vector_helper_length c _ (some lim) 100,
    vector_helper_length c _ (some lim) 100,
    fun hlt => vector_helper_pad c _ limit 100 i hpad hlt,
    fun hlt => vector_helper_pad c _ limit 100 i hpad hlt⟩

/-- C8 witness: on an empty two-slot history, the default vector has 3
entries, a limit of 2 caps it at 2, and position 0 is zero-padded. -/
theorem C8_vector_shape_witness :
    (connStatsEmpty.stats_memory_vector Option.none).length = 3 ∧
    (connStatsEmpty.stats_memory_vector (some 2)).length = 2 ∧
    (connStatsEmpty.stats_memory_vector Option.none).get? 0 = some 0 := by
  have h := C8_vector_shape connStatsEmpty Option.none 2 0 (by simp [connStatsEmpty])
  refine ⟨h.1, h.2.2.1, h.2.2.2.2.1 ?_⟩
  rw [h.1]
  norm_num

/-! ## C10: scalar getters on an empty history -/

/-- C10. With an empty statistics history every scalar stats getter
returns 0. -/
theorem C10_empty_history_getters_zero (c : StatsConn) (h : c.stats = []) :
    c.stats_memory = 0 ∧ c.host_cpu_time_percentage = 0 ∧
    c.guest_cpu_time_percentage = 0 ∧ c.network_traffic_rate = 0 ∧
    c.disk_io_rate = 0 ∧ c.network_traffic_max_rate = 0 ∧
    c.disk_io_max_rate = 0 := by
  simp [StatsConn.stats_memory, StatsConn.host_cpu_time_percentage,
    StatsConn.guest_cpu_time_percentage, StatsConn.network_traffic_rate,
    StatsConn.disk_io_rate, StatsConn.network_traffic_max_rate,
    StatsConn.disk_io_max_rate, StatsConn.get_record, h]

/-- C10 witness: the getters of `connStatsEmpty` all evaluate to 0. -/
theorem C10_empty_history_getters_zero_witness :
    connStatsEmpty.stats_memory = 0 ∧
    connStatsEmpty.host_cpu_time_percentage = 0 ∧
    connStatsEmpty.guest_cpu_time_percentage = 0 ∧
    connStatsEmpty.network_traffic_rate = 0 ∧
    connStatsEmpty.disk_io_rate = 0 ∧
    connStatsEmpty.network_traffic_max_rate = 0 ∧
    connStatsEmpty.disk_io_max_rate = 0 :=
  C10_empty_history_getters_zero connStatsEmpty rfl

/-! ## C5: event-registration frame effect -/

/-- C5. The spec claims a registration failure for one class leaves every
other class's event-capability flag unchanged. In the code the except
branch of the node-device block assigns `using_network_events = False`, so
a node-device registration failure clears the network flag even though the
network lifecycle callback registered successfully (while
`using_node_device_events` itself merely keeps its prior value). -/
theorem C5_nodedev_failure_clears_network_flag :
    regNodedevFails.network_lifecycle_ok = true ∧
    regNodedevFails.nodedev_lifecycle_ok = false ∧
    (add_conn_events EventFlags.init regNodedevFails).using_network_events = false ∧
    (add_conn_events EventFlags.init
      { regNodedevFails with nodedev_lifecycle_ok := true }).using_network_events = true := by
  decide

/-! ## C6 and C7: tick guards, per-class polling and the stats branch -/

theorem tick_decision_skip_closing (c : TickConn) (o : TickOpts)
    (h : c.closing = true) :
    tick_decision c o = TickDecision.none := by
  simp [tick_decision, h]

theorem tick_decision_skip_disconnected (c : TickConn) (o : TickOpts)
    (h1 : c.closing = false) (h2 : c.state = ConnState.disconnected) :
    tick_decision c o = TickDecision.none := by
  simp [tick_decision, h1, h2]

theorem tick_decision_skip_connecting (c : TickConn) (o : TickOpts)
    (h1 : c.closing = false) (h2 : c.state = ConnState.connecting)
    (h3 : o.force = false) :
    tick_decision c o = TickDecision.none := by
  simp [tick_decision, h1, h2, h3]

theorem tick_decision_run (c : TickConn) (o : TickOpts)
    (h1 : c.closing = false) (h2 : ¬ c.state = ConnState.disconnected)
    (h3 : ¬ (c.state = ConnState.connecting ∧ o.force = false)) :
    tick_decision c o =
      { vm := if c.using_domain_events = true ∧ o.force = false then false else o.pollvm
        net := (if c.using_network_events = true ∧ o.force = false then false
                else o.pollnet) && c.network_capable
        pool := (if c.using_storage_pool_events = true ∧ o.force = false then false
                 else o.pollpool) && c.storage_capable
        iface := o.polliface && c.iface_capable
        nodedev := (if c.using_node_device_events = true ∧ o.force = false then false
                    else o.pollnodedev) && c.nodedev_capable
        stats := if o.pollvm = false then false else o.stats_update } := by
  simp [tick_decision, h1, h2, h3]

theorem event_gate_iff : ∀ cov req cap force : Bool,
    ((if cov = true ∧ force = false then false else req) && cap) = true ↔
      (req = true ∧ cap = true ∧ (cov = true → force = true)) := by
  decide

/-- C6. A tick polls class C exactly when the connection is not closing,
not disconnected, not connecting-without-force, polling of C was requested,
C passes its capability gate, and C is either not event-covered or the tick
is forced. -/
theorem C6_tick_polls_iff (c : TickConn) (o : TickOpts) (cls : EntityClass) :
    tick_polls c o cls = true ↔
      (c.closing = false ∧ ¬ c.state = ConnState.disconnected ∧
        (c.state = ConnState.connecting → o.force = true) ∧
        o.requested cls = true ∧ c.capable cls = true ∧
        (c.event_covered cls = true → o.force = true)) := by
  by_cases h1 : c.closing = true
  · have hd := tick_decision_skip_closing c o h1
    cases cls <;> simp [tick_polls, hd, TickDecision.none, h1]
  · have h1f : c.closing = false := by revert h1; cases c.closing <;> simp
    by_cases h2 : c.state = ConnState.disconnected
    · have hd := tick_decision_skip_disconnected c o h1f h2
      cases cls <;> simp [tick_polls, hd, TickDecision.none, h2]
    · by_cases h3 : c.state = ConnState.connecting ∧ o.force = false
      · have hd := tick_decision_skip_connecting c o h1f h3.1 h3.2
        cases cls <;> simp [tick_polls, hd, TickDecision.none, h3.1, h3.2, h1f, h2]
      · have hd := tick_decision_run c o h1f h2 h3
        have h3i : c.state = ConnState.connecting → o.force = true := by
          intro hc
          cases hf : o.force
          · exact absurd ⟨hc, hf⟩ h3
          · rfl
        have h3o : ¬ c.state = ConnState.connecting ∨ o.force = true := by
          by_cases hc : c.state = ConnState.connecting
          · exact Or.inr (h3i hc)
          · exact Or.inl hc
        cases cls
        ·
          have hg := event_gate_iff c.using_domain_events o.pollvm true o.force
          simp only [Bool.and_true] at hg
          simp [tick_polls, hd, TickOpts.requested, TickConn.capable,
            TickConn.event_covered, h1f, h2, h3i, hg, imp_iff_not_or,
            Bool.not_eq_true, h3o]
          exact and_comm
        ·
          have hg := event_gate_iff c.using_network_events o.pollnet
            c.network_capable o.force
          simp [tick_polls, hd, TickOpts.requested, TickConn.capable,
            TickConn.event_covered, h1f, h2, h3i, hg, imp_iff_not_or,
            Bool.not_eq_true, h3o]
          exact ⟨fun h => ⟨h.1.2, h.2, h.1.1⟩, fun h => ⟨⟨h.2.2, h.1⟩, h.2.1⟩⟩
        ·
          have hg := event_gate_iff c.using_storage_pool_events o.pollpool
            c.storage_capable o.force
          simp [tick_polls, hd, TickOpts.requested, TickConn.capable,
            TickConn.event_covered, h1f, h2, h3i, hg, imp_iff_not_or,
            Bool.not_eq_true, h3o]
          exact ⟨fun h => ⟨h.1.2, h.2, h.1.1⟩, fun h => ⟨⟨h.2.2, h.1⟩, h.2.1⟩⟩
        ·
          simp [tick_polls, hd, TickOpts.requested, TickConn.capable,
            TickConn.event_covered, h1f, h2, h3i, Bool.and_eq_true,
            imp_iff_not_or, Bool.not_eq_true, h3o]
        ·
          have hg := event_gate_iff c.using_node_device_events o.pollnodedev
            c.nodedev_capable o.force
          simp [tick_polls, hd, TickOpts.requested, TickConn.capable,
            TickConn.event_covered, h1f, h2, h3i, hg, imp_iff_not_or,
            Bool.not_eq_true, h3o]
          exact ⟨fun h => ⟨h.1.2, h.2, h.1.1⟩, fun h => ⟨⟨h.2.2, h.1⟩, h.2.1⟩⟩

/-- C6 witness: a forced tick on `connTickA` polls the network class even
though network events are in use. -/
theorem C6_tick_polls_iff_witness :
    tick_polls connTickA optsForcedAll EntityClass.net = true :=
  (C6_tick_polls_iff connTickA optsForcedAll EntityClass.net).mpr (by decide)

/-- C7 counterexample: a tick on an active, non-closing connection with a
statistics refresh requested but VM polling not requested passes the entry
guards yet computes no sample and emits no resources-sampled
notification. -/
theorem C7_stats_skipped_without_pollvm :
    connTickA.closing = false ∧ connTickA.state = ConnState.active ∧
    optsNoVm.stats_update = true ∧
    (tick_decision connTickA optsNoVm).stats = false := by
  decide

/-- C7 amended: for every tick that passes the entry guards, if the options
requested a statistics refresh and also requested VM polling, the stats
branch runs: a new aggregate sample is computed and resources-sampled is
emitted. -/
theorem C7_stats_emitted (c : TickConn) (o : TickOpts)
    (h1 : c.closing = false) (h2 : ¬ c.state = ConnState.disconnected)
    (h3 : c.state = ConnState.connecting → o.force = true)
    (h4 : o.stats_update = true) (h5 : o.pollvm = true) :
    (tick_decision c o).stats = true := by
  have h3n : ¬ (c.state = ConnState.connecting ∧ o.force = false) := by
    rintro ⟨hc, hf⟩
    rw [h3 hc] at hf
    cases hf
  rw [tick_decision_run c o h1 h2 h3n]
  simp [h4, h5]

/-- C7 witness: the amended statement instantiated on a forced full tick. -/
theorem C7_stats_emitted_witness :
    (tick_decision connTickA optsForcedAll).stats = true :=
  C7_stats_emitted connTickA optsForcedAll rfl (by decide) (fun h => rfl) rfl rfl

end VMConn
